import Mathlib

/-!
Verification of the client-side widget layer of the x-levage marketing site
(`src/static/js/site.js`, with a variant hero-video implementation in
`src/unnamed/part_000`). Each stateful DOM widget is shallowly embedded as a
pure state-transition function over a record of the DOM state it touches;
JS numbers appearing here are small integers (element counts, indices), so
they are modelled by `Nat`/`Int`, with `Option Int` standing for
number-or-NaN where `parseInt` can fail. All definitions are executable.
-/

/-! ## Gallery pager (site.js lines 118-169)

State of one `[data-effects-gallery]` element. Each item is represented by
whether it carries the `hidden` class (`true` = hidden). The `more` button,
the shown/total counter elements are modelled as present (the code guards
for their absence but the properties below concern galleries that have
them). -/

structure GalleryState where
  items : List Bool
  btnHidden : Bool
  btnLabel : String
  shownText : String
  totalText : String
deriving DecidableEq, Repr

/-- `shownCount` (site.js 133-135): items not carrying the `hidden` class. -/
def shownCount (items : List Bool) : Nat :=
  (items.filter (fun h => !h)).length

/-- `updateUI` (site.js 137-151): re-render the shown counter; if nothing
remains, add `hidden` to the more-button, otherwise re-render its label.
Note the button's `hidden` class is never removed here. -/
def updateUI (step total : Nat) (s : GalleryState) : GalleryState :=
  let shown := shownCount s.items
  let s1 := { s with shownText := toString shown }
  let remaining : Int := max 0 ((total : Int) - (shown : Int))
  if remaining ≤ 0 then { s1 with btnHidden := true }
  else
    let next : Int := min (step : Int) remaining
    { s1 with btnLabel :=
        "Pokaż kolejne " ++ toString next ++ " (pozostało " ++ toString remaining ++ ")" }

/-- Setup pass over the items (site.js 154-157): `idx < initial` keeps the
item visible, anything else (including a NaN `initial`, for which the
comparison is false) hides it. `initial : Option Int` is the `parseInt`
result, `none` standing for NaN. -/
def setupItems (initial : Option Int) (items : List Bool) : List Bool :=
  items.mapIdx (fun idx _ =>
    match initial with
    | none => true
    | some n => !decide ((idx : Int) < n))

/-- Per-gallery setup (site.js 128-159): bail out on an empty item list,
else render the total, re-assert the first `initial` visible, and run
`updateUI`. -/
def setupGallery (initial step : Nat) (s : GalleryState) : GalleryState :=
  if s.items.length = 0 then s
  else
    let total := s.items.length
    let s1 := { s with totalText := toString total }
    let s2 := { s1 with items := setupItems (some (initial : Int)) s1.items }
    updateUI step total s2

/-- A click on the more-button (site.js 161-168): reveal
`items.slice(shown, shown + step)` and re-render. The empty-gallery guard
models that the listener is only attached when the gallery has items
(site.js 128). -/
def clickMore (step total : Nat) (s : GalleryState) : GalleryState :=
  if s.items.length = 0 then s
  else
    let shown := shownCount s.items
    let newItems := s.items.mapIdx (fun i h =>
      if shown ≤ i ∧ i < shown + step then false else h)
    updateUI step total { s with items := newItems }

/-- Setup followed by `k` clicks on the more-button. The captured `total`
is the item count, which no operation changes. -/
def galleryRun (initial step k : Nat) (s : GalleryState) : GalleryState :=
  (clickMore step s.items.length)^[k] (setupGallery initial step s)

/-! ### Characterisation of the reachable item lists -/

/-- The item list in which exactly the first `v` items are visible. -/
def pfItems (v total : Nat) : List Bool :=
  (List.range total).map (fun i => decide (v ≤ i))

theorem length_pfItems (v total : Nat) : (pfItems v total).length = total := by
  simp [pfItems]

theorem shownCount_le_length (items : List Bool) : shownCount items ≤ items.length := by
  simpa [shownCount] using List.length_filter_le _ items

theorem shownCount_pfItems (v total : Nat) : shownCount (pfItems v total) = min v total := by
  induction total with
  | zero => simp [pfItems, shownCount]
  | succ n ih =>
      rw [pfItems, List.range_succ, List.map_append] at *
      simp only [shownCount, List.filter_append, List.length_append] at *
      rw [ih]
      by_cases h : v ≤ n
      · simp [h]; omega
      · simp [h]; omega

theorem setupItems_nat (initial : Nat) (items : List Bool) :
    setupItems (some (initial : Int)) items = pfItems initial items.length := by
  apply List.ext_get
  · simp [setupItems, pfItems]
  · intro i h1 h2
    have hi : i < items.length := by
      simpa [setupItems] using h1
    simp only [setupItems, pfItems] at *
    rw [List.get_mapIdx _ _ _ hi]
    · simp only [List.get_eq_getElem, List.getElem_map, List.getElem_range]
      have : (i : Int) < (initial : Int) ↔ i < initial := by exact_mod_cast Iff.rfl
      by_cases h : initial ≤ i
      · simp [h, (by omega : ¬ (i : Int) < (initial : Int))]
      · simp [h, (by omega : (i : Int) < (initial : Int))]

theorem click_pfItems (step v total : Nat) :
    ((pfItems v total).mapIdx (fun i h =>
      if shownCount (pfItems v total) ≤ i ∧ i < shownCount (pfItems v total) + step
      then false else h))
    = pfItems (v + step) total := by
  apply List.ext_get
  · simp [pfItems]
  · intro i h1 h2
    have hi : i < (pfItems v total).length := by
      simpa using h1
    have hit : i < total := by
      simpa [pfItems] using h2
    rw [List.get_mapIdx _ _ _ hi]
    rw [shownCount_pfItems]
    simp only [pfItems, List.get_eq_getElem, List.getElem_map, List.getElem_range]
    by_cases hc : min v total ≤ i ∧ i < min v total + step
    · rw [if_pos hc, eq_comm, decide_eq_false_iff_not]
      omega
    · rw [if_neg hc, decide_eq_decide]
      omega

theorem items_updateUI (step total : Nat) (s : GalleryState) :
    (updateUI step total s).items = s.items := by
  unfold updateUI
  dsimp only
  split <;> rfl

theorem items_clickMore (step total v : Nat) (s : GalleryState)
    (h : s.items = pfItems v total) :
    (clickMore step total s).items = pfItems (v + step) total := by
  unfold clickMore
  by_cases h0 : s.items.length = 0
  · rw [if_pos h0]
    have : total = 0 := by
      rw [h, length_pfItems] at h0
      exact h0
    subst this
    rw [h]
    rfl
  · rw [if_neg h0]
    rw [items_updateUI]
    dsimp only
    rw [h, click_pfItems]

theorem items_setupGallery (initial step : Nat) (s : GalleryState) :
    (setupGallery initial step s).items = pfItems initial s.items.length := by
  unfold setupGallery
  by_cases h0 : s.items.length = 0
  · rw [if_pos h0]
    rw [List.length_eq_zero] at h0
    rw [h0]
    rfl
  · rw [if_neg h0, items_updateUI]
    dsimp only
    rw [setupItems_nat]

theorem items_galleryRun (initial step k : Nat) (s : GalleryState) :
    (galleryRun initial step k s).items = pfItems (initial + k * step) s.items.length := by
  induction k with
  | zero => simpa [galleryRun] using items_setupGallery initial step s
  | succ n ih =>
      unfold galleryRun at *
      rw [Function.iterate_succ_apply']
      rw [items_clickMore step s.items.length (initial + n * step) _ ih]
      have : initial + n * step + step = initial + (n + 1) * step := by ring
      rw [this]

/-- C1: for every gallery, after setup exactly `min(initial, total)` items
carry no `hidden` class, and after `k` clicks on the more-button the count
of items without the `hidden` class is `min(initial + k*step, total)`. -/
theorem gallery_visible_counts (initial step k : Nat) (s : GalleryState) :
    shownCount (setupGallery initial step s).items = min initial s.items.length ∧
    shownCount (galleryRun initial step k s).items
      = min (initial + k * step) s.items.length := by
  refine ⟨?_, ?_⟩
  · rw [items_setupGallery, shownCount_pfItems]
  · rw [items_galleryRun, shownCount_pfItems]

theorem btnHidden_updateUI (step total : Nat) (s : GalleryState) :
    (updateUI step total s).btnHidden
      = (s.btnHidden || decide (total ≤ shownCount s.items)) := by
  unfold updateUI
  dsimp only
  split
  · next h =>
      have ht : total ≤ shownCount s.items := by omega
      simp [ht]
  · next h =>
      have ht : ¬ total ≤ shownCount s.items := by omega
      simp [ht]

theorem galleryRun_succ (initial step k : Nat) (s : GalleryState) :
    galleryRun initial step (k + 1) s
      = clickMore step s.items.length (galleryRun initial step k s) := by
  unfold galleryRun
  rw [Function.iterate_succ_apply']

theorem btnHidden_galleryRun (initial step k : Nat) (s : GalleryState)
    (hT : s.items.length ≠ 0) (hb : s.btnHidden = false) :
    (galleryRun initial step k s).btnHidden
      = decide (s.items.length ≤ initial + k * step) := by
  induction k with
  | zero =>
      show (setupGallery initial step s).btnHidden = _
      unfold setupGallery
      rw [if_neg hT]
      rw [btnHidden_updateUI]
      dsimp only
      rw [hb, setupItems_nat, shownCount_pfItems]
      rw [Bool.false_or, decide_eq_decide]
      omega
  | succ n ih =>
      rw [galleryRun_succ]
      have hit := items_galleryRun initial step n s
      unfold clickMore
      rw [if_neg (by rw [hit, length_pfItems]; exact hT)]
      rw [btnHidden_updateUI]
      dsimp only
      rw [ih, hit, click_pfItems, shownCount_pfItems]
      rw [Bool.eq_iff_iff]
      simp only [Bool.or_eq_true, decide_eq_true_eq]
      have hmul : (n + 1) * step = n * step + step := by ring
      omega

/-- C2 counterexample: for a gallery with zero items the code returns before
`updateUI` ever runs, so the more-button keeps no `hidden` class even though
the visible count (0) equals the total (0). -/
theorem gallery_more_button_iff_cex :
    shownCount (setupGallery 8 8 ⟨[], false, "", "", ""⟩).items
        = (setupGallery 8 8 ⟨[], false, "", "", ""⟩).items.length ∧
      (setupGallery 8 8 ⟨[], false, "", "", ""⟩).btnHidden = false := by
  decide

/-- C2 (amended to galleries with at least one item): provided the more
control starts without the `hidden` class, after setup and any number of
clicks the control carries `hidden` iff the visible item count equals the
total. -/
theorem gallery_more_button_iff (initial step k : Nat) (s : GalleryState)
    (hT : s.items.length ≠ 0) (hb : s.btnHidden = false) :
    ((galleryRun initial step k s).btnHidden = true
      ↔ shownCount (galleryRun initial step k s).items = s.items.length) := by
  rw [btnHidden_galleryRun initial step k s hT hb]
  rw [items_galleryRun, shownCount_pfItems]
  simp only [decide_eq_true_eq]
  omega

/-- Witness for C2 at a concrete gallery of three items. -/
theorem gallery_more_button_iff_witness :
    ((galleryRun 2 1 1 ⟨[false, false, false], false, "", "", ""⟩).btnHidden = true
      ↔ shownCount (galleryRun 2 1 1 ⟨[false, false, false], false, "", "", ""⟩).items
          = 3) :=
  gallery_more_button_iff 2 1 1 ⟨[false, false, false], false, "", "", ""⟩ (by decide) rfl

theorem getD_pfItems (v total i : Nat) :
    (pfItems v total).getD i true = decide (total ≤ i ∨ v ≤ i) := by
  rcases Nat.lt_or_ge i total with h | h
  · rw [List.getD_eq_getElem _ _ (by simpa [pfItems] using h)]
    simp only [pfItems, List.getElem_map, List.getElem_range]
    rw [decide_eq_decide]
    omega
  · rw [List.getD_eq_default _ _ (by simpa [pfItems] using h)]
    have hor : total ≤ i ∨ v ≤ i := Or.inl h
    simp [hor]

/-- C3: after setup no gallery operation re-hides an item (an item visible
after `k` operations is still visible after any `l ≥ k`), and the
`(k+1)`-th click turns exactly the next `min(step, remaining)` hidden
items, in original document order, from hidden to visible. -/
theorem gallery_monotone_reveal (initial step k l : Nat) (s : GalleryState)
    (hkl : k ≤ l) :
    (∀ i, (galleryRun initial step k s).items.getD i true = false →
        (galleryRun initial step l s).items.getD i true = false) ∧
    (∀ i, ((galleryRun initial step k s).items.getD i true = true ∧
           (galleryRun initial step (k + 1) s).items.getD i true = false)
        ↔ (shownCount (galleryRun initial step k s).items ≤ i ∧
           i < shownCount (galleryRun initial step k s).items
              + min step (s.items.length
                  - shownCount (galleryRun initial step k s).items))) := by
  have hk := items_galleryRun initial step k s
  have hl := items_galleryRun initial step l s
  have hk1 := items_galleryRun initial step (k + 1) s
  constructor
  · intro i hvis
    rw [hk, getD_pfItems] at hvis
    rw [hl, getD_pfItems]
    rw [decide_eq_false_iff_not] at hvis ⊢
    have hmono : k * step ≤ l * step := Nat.mul_le_mul_right _ hkl
    omega
  · intro i
    rw [hk, hk1, getD_pfItems, getD_pfItems, shownCount_pfItems]
    have hmul : (k + 1) * step = k * step + step := by ring
    constructor
    · rintro ⟨h1, h2⟩
      rw [decide_eq_true_eq] at h1
      rw [decide_eq_false_iff_not] at h2
      omega
    · rintro ⟨h1, h2⟩
      constructor
      · rw [decide_eq_true_eq]
        omega
      · rw [decide_eq_false_iff_not]
        omega

/-- A concrete four-item gallery used to instantiate C3. -/
def gw3 : GalleryState := ⟨[false, false, false, false], false, "", "", ""⟩

/-- Witness for C3 at a gallery of four items, `initial = 1`, `step = 2`,
comparing the states after 0 and 1 clicks. -/
theorem gallery_monotone_reveal_witness :
    (∀ i, (galleryRun 1 2 0 gw3).items.getD i true = false →
        (galleryRun 1 2 1 gw3).items.getD i true = false) ∧
    (∀ i, ((galleryRun 1 2 0 gw3).items.getD i true = true ∧
           (galleryRun 1 2 (0 + 1) gw3).items.getD i true = false)
        ↔ (shownCount (galleryRun 1 2 0 gw3).items ≤ i ∧
           i < shownCount (galleryRun 1 2 0 gw3).items
              + min 2 (gw3.items.length
                  - shownCount (galleryRun 1 2 0 gw3).items))) :=
  gallery_monotone_reveal 1 2 0 1 gw3 (by decide)

/-! ## Mobile drawer (site.js 9-28)

State of the drawer root, the trigger button and the two scroll-locked
elements; `root` and `btn` are modelled as present (the functions return
early otherwise and the drawer claims concern pages that have them). -/

structure DrawerState where
  openClass : Bool
  ariaHidden : String
  ariaExpanded : String
  htmlOverflow : String
  bodyOverflow : String
deriving DecidableEq, Repr

/-- `lockScroll` (site.js 9-12). -/
def lockScroll (lock : Bool) (s : DrawerState) : DrawerState :=
  { s with htmlOverflow := if lock then "hidden" else ""
           bodyOverflow := if lock then "hidden" else "" }

/-- `openMenu` (site.js 14-20). -/
def openMenu (s : DrawerState) : DrawerState :=
  lockScroll true
    { s with openClass := true, ariaHidden := "false", ariaExpanded := "true" }

/-- `closeMenu` (site.js 22-28). -/
def closeMenu (s : DrawerState) : DrawerState :=
  lockScroll false
    { s with openClass := false, ariaHidden := "true", ariaExpanded := "false" }

/-- C5 counterexample: a drawer whose root starts with `aria-hidden="false"`
and a `scroll` overflow style does not get those initial values back from
`open()` followed by `close()`. -/
theorem drawer_open_close_cex :
    (closeMenu (openMenu ⟨false, "false", "true", "scroll", "scroll"⟩)).ariaHidden
        ≠ (⟨false, "false", "true", "scroll", "scroll"⟩ : DrawerState).ariaHidden ∧
    (closeMenu (openMenu ⟨false, "false", "true", "scroll", "scroll"⟩)).bodyOverflow
        ≠ (⟨false, "false", "true", "scroll", "scroll"⟩ : DrawerState).bodyOverflow := by
  decide

/-- C5 (amended): `open()` followed by `close()` always produces the
canonical closed state, so it restores `aria-hidden`, `aria-expanded` and
the overflow styles exactly when they started at the canonical closed
values (`"true"`, `"false"`, empty overflow); moreover `close ∘ open = close`
(close overwrites everything open touched) rather than a pointwise inverse. -/
theorem drawer_open_close (s : DrawerState)
    (h1 : s.ariaHidden = "true") (h2 : s.ariaExpanded = "false")
    (h3 : s.htmlOverflow = "") (h4 : s.bodyOverflow = "") :
    ((closeMenu (openMenu s)).ariaHidden = s.ariaHidden
      ∧ (closeMenu (openMenu s)).ariaExpanded = s.ariaExpanded
      ∧ (closeMenu (openMenu s)).htmlOverflow = s.htmlOverflow
      ∧ (closeMenu (openMenu s)).bodyOverflow = s.bodyOverflow)
    ∧ closeMenu (openMenu s) = closeMenu s := by
  refine ⟨⟨?_, ?_, ?_, ?_⟩, rfl⟩ <;>
    simp [closeMenu, openMenu, lockScroll, h1, h2, h3, h4]

/-- Witness for C5 at the canonical closed drawer state. -/
theorem drawer_open_close_witness :
    (((closeMenu (openMenu ⟨false, "true", "false", "", ""⟩)).ariaHidden
        = (⟨false, "true", "false", "", ""⟩ : DrawerState).ariaHidden
      ∧ (closeMenu (openMenu ⟨false, "true", "false", "", ""⟩)).ariaExpanded
        = (⟨false, "true", "false", "", ""⟩ : DrawerState).ariaExpanded
      ∧ (closeMenu (openMenu ⟨false, "true", "false", "", ""⟩)).htmlOverflow
        = (⟨false, "true", "false", "", ""⟩ : DrawerState).htmlOverflow
      ∧ (closeMenu (openMenu ⟨false, "true", "false", "", ""⟩)).bodyOverflow
        = (⟨false, "true", "false", "", ""⟩ : DrawerState).bodyOverflow)
    ∧ closeMenu (openMenu ⟨false, "true", "false", "", ""⟩)
        = closeMenu ⟨false, "true", "false", "", ""⟩) :=
  drawer_open_close ⟨false, "true", "false", "", ""⟩ rfl rfl rfl rfl

/-- C6: `close()` is idempotent (closing an already-closed drawer reapplies
the same attributes), and so is `open()`. -/
theorem drawer_idempotent (s : DrawerState) :
    closeMenu (closeMenu s) = closeMenu s ∧ openMenu (openMenu s) = openMenu s :=
  ⟨rfl, rfl⟩

/-! ## Admin row expand/collapse (site.js 202-223)

State of one target row and its `.lead-toggle` element; the row is found by
the id in `data-target` and both are modelled as present (the handler
returns early otherwise). -/

structure RowToggleState where
  rowHidden : Bool
  label : String
  ariaExpanded : String
deriving DecidableEq, Repr

/-- lead-toggle click handler (site.js 213-222): flip the row's `hidden`
class and write the matching label and `aria-expanded` value. -/
def leadToggleClick (s : RowToggleState) : RowToggleState :=
  if s.rowHidden then ⟨false, "Ukryj", "true"⟩
  else ⟨true, "Podgląd", "false"⟩

/-- C4 counterexample: a toggle whose initial label is `"X"` (and whose
`aria-expanded` starts at `"true"` while the row is hidden) does not get its
label or `aria-expanded` back after two clicks. -/
theorem lead_toggle_double_click_cex :
    (leadToggleClick (leadToggleClick ⟨true, "X", "true"⟩)).label
        ≠ (⟨true, "X", "true"⟩ : RowToggleState).label ∧
    (leadToggleClick (leadToggleClick ⟨true, "X", "true"⟩)).ariaExpanded
        ≠ (⟨true, "X", "true"⟩ : RowToggleState).ariaExpanded := by
  decide

/-- C4 (amended): two consecutive clicks always restore the row's `hidden`
class; they restore the label text and `aria-expanded` as well whenever
those started at the canonical values the handler itself writes
(`"Podgląd"`/`"false"` for a hidden row, `"Ukryj"`/`"true"` for a visible
one). -/
theorem lead_toggle_double_click (s : RowToggleState) :
    (leadToggleClick (leadToggleClick s)).rowHidden = s.rowHidden ∧
    (s.label = (if s.rowHidden then "Podgląd" else "Ukryj") →
      s.ariaExpanded = (if s.rowHidden then "false" else "true") →
      leadToggleClick (leadToggleClick s) = s) := by
  rcases s with ⟨rh, lab, ar⟩
  cases rh <;> constructor <;> intros <;> simp_all [leadToggleClick]

/-- Witness for C4 at a hidden row carrying the canonical label. -/
theorem lead_toggle_double_click_witness :
    leadToggleClick (leadToggleClick ⟨true, "Podgląd", "false"⟩)
      = (⟨true, "Podgląd", "false"⟩ : RowToggleState) :=
  (lead_toggle_double_click ⟨true, "Podgląd", "false"⟩).2 rfl rfl

/-! ## Admin reply-link fallback (site.js 172-199)

`href` and `data-gmail` are the clicked element's attributes, with a null
`getAttribute` result modelled by `""` (matching the `|| ''` in the
source). `blurBeforeTimeout` records whether the window received a `blur`
event before the 900ms timer fired; the outcome gathers the observable
effects of the handler including the timer callback. -/

/-- Prefix test on strings via their character lists; `p.indexOf(q) === 0`
holds exactly when `q` is a prefix of `p`. -/
def strStartsWith (s p : String) : Bool :=
  p.toList.isPrefixOf s.toList

structure ReplyOutcome where
  prevented : Bool
  navigatedTo : Option String
  openedTab : Option String
deriving DecidableEq, Repr

/-- reply-link click handler (site.js 172-199). `mailto.indexOf('mailto:')
!== 0` is exactly failure of the `mailto:` prefix test. -/
def replyLinkClick (href gmail : String) (blurBeforeTimeout : Bool) : ReplyOutcome :=
  let mailto := href
  if mailto = "" ∨ strStartsWith mailto "mailto:" = false then
    ⟨false, none, none⟩
  else
    { prevented := true
      navigatedTo := some mailto
      openedTab :=
        if blurBeforeTimeout = false ∧ gmail ≠ "" then some gmail else none }

/-- C7: a blur before the timer suppresses the fallback; with no blur and a
non-empty `data-gmail` the fallback URL is opened; a non-`mailto:` href
leaves the click entirely alone (no `preventDefault`, no navigation, no
fallback). -/
theorem reply_link_cases (href gmail : String) (blur : Bool) :
    (blur = true → (replyLinkClick href gmail blur).openedTab = none) ∧
    (blur = false → gmail ≠ "" → strStartsWith href "mailto:" = true →
        (replyLinkClick href gmail blur).openedTab = some gmail) ∧
    (strStartsWith href "mailto:" = false →
        replyLinkClick href gmail blur = ⟨false, none, none⟩) := by
  refine ⟨?_, ?_, ?_⟩
  · intro hb
    unfold replyLinkClick
    dsimp only
    by_cases hg : href = "" ∨ strStartsWith href "mailto:" = false
    · rw [if_pos hg]
    · rw [if_neg hg]
      dsimp only
      rw [if_neg]
      rintro ⟨h1, -⟩
      rw [hb] at h1
      exact absurd h1 (by decide)
  · intro hb hgm hs
    unfold replyLinkClick
    dsimp only
    rw [if_neg, if_pos ⟨hb, hgm⟩]
    rintro (h | h)
    · rw [h] at hs
      exact absurd hs (by decide)
    · rw [hs] at h
      exact absurd h (by decide)
  · intro hs
    unfold replyLinkClick
    dsimp only
    rw [if_pos (Or.inr hs)]

/-- Witness for C7: three concrete clicks, one per case. -/
theorem reply_link_cases_witness :
    (replyLinkClick "mailto:a@b.pl" "https://g" true).openedTab = none ∧
    (replyLinkClick "mailto:a@b.pl" "https://g" false).openedTab = some "https://g" ∧
    replyLinkClick "https://x" "https://g" false = ⟨false, none, none⟩ :=
  ⟨(reply_link_cases "mailto:a@b.pl" "https://g" true).1 rfl,
   (reply_link_cases "mailto:a@b.pl" "https://g" false).2.1 rfl (by decide) (by decide),
   (reply_link_cases "https://x" "https://g" false).2.2 (by decide)⟩

/-! ## Hero video sound toggle (site.js 99-115)

The pieces of the media element the handler touches, plus its label.
`playFails` abstracts whether the awaited `video.play()` call rejects (or
throws); the handler always issues the play request, recorded in
`playRequested`. -/

structure VideoState where
  muted : Bool
  volume : Rat
  label : String
deriving DecidableEq, Repr

structure SoundToggleResult where
  video : VideoState
  playRequested : Bool
deriving DecidableEq, Repr

/-- sound toggle click handler (site.js 104-114): flip `muted`, restore the
volume when now unmuted, request playback; on rejection force `muted` back
to `true`; in the `finally` block re-render the label from the current
`muted` flag. -/
def soundToggleClick (playFails : Bool) (s : VideoState) : SoundToggleResult :=
  let s1 := { s with muted := !s.muted }
  let s2 := if s1.muted = false then { s1 with volume := 1 } else s1
  let s3 := if playFails then { s2 with muted := true } else s2
  ⟨{ s3 with label := if s3.muted then "Włącz dźwięk" else "Wycisz" }, true⟩

/-- C8: the click flips `muted` (kept flipped when playback succeeds),
sets the volume to 1 when unmuting, always requests playback, forces
`muted` back on failure, and in every case leaves the label matching the
video's final `muted` state. -/
theorem sound_toggle_spec (s : VideoState) (f : Bool) :
    ((soundToggleClick f s).video.label
        = (if (soundToggleClick f s).video.muted then "Włącz dźwięk" else "Wycisz")) ∧
    (soundToggleClick f s).playRequested = true ∧
    (f = false → (soundToggleClick f s).video.muted = !s.muted) ∧
    (s.muted = true → (soundToggleClick f s).video.volume = 1) ∧
    (f = true → (soundToggleClick f s).video.muted = true) := by
  rcases s with ⟨m, v, l⟩
  cases m <;> cases f <;>
    refine ⟨?_, rfl, ?_, ?_, ?_⟩ <;> intros <;> simp_all [soundToggleClick]

/-- Witness for C8: unmuting with a successful play request. -/
theorem sound_toggle_spec_witness :
    (soundToggleClick false ⟨true, 0, ""⟩).video.muted = !true ∧
    (soundToggleClick false ⟨true, 0, ""⟩).video.volume = 1 :=
  ⟨(sound_toggle_spec ⟨true, 0, ""⟩ false).2.2.1 rfl,
   (sound_toggle_spec ⟨true, 0, ""⟩ false).2.2.2.1 rfl⟩

/-! ## Variant hero video: source swap (part_000 lines 75-93)

The pieces of the media element `setSrcKeepTime` touches. `src` is the
`src` attribute with `""` for an absent one (matching `getAttribute('src')
|| ''`); durations and times are rationals, with a duration of `0` playing
the role of the falsy not-yet-known value in `(video.duration || t)`. The
function is modelled through the one-shot `loadedmetadata` listener:
`newDuration` is the duration the new source reports when its metadata
loads, and the result is the state after the `restore` callback has run. -/

structure VideoSrcState where
  src : String
  muted : Bool
  defaultMuted : Bool
  currentTime : Rat
  duration : Rat
deriving DecidableEq, Repr

/-- `setSrcKeepTime` (part_000 lines 75-93). The `isFinite` guard on
`currentTime` is vacuous here since `Rat` has no NaN/Infinity. -/
def setSrcKeepTime (nextSrc : String) (nextMuted : Bool) (newDuration : Rat)
    (s : VideoSrcState) : VideoSrcState :=
  if nextSrc = "" then s
  else if s.src = nextSrc then
    { s with muted := nextMuted, defaultMuted := nextMuted }
  else
    let t := s.currentTime
    let restored := min t (max 0 (if newDuration = 0 then t else newDuration))
    { src := nextSrc, muted := nextMuted, defaultMuted := nextMuted,
      currentTime := restored, duration := newDuration }

/-- C9: swapping the source restores the pre-swap `currentTime` clamped to
the new asset's duration and to be non-negative (and restores it exactly
when the new duration is unknown), while requesting the already-current
source changes only the muted flags. -/
theorem setSrcKeepTime_spec (s : VideoSrcState) (nextSrc : String) (nm : Bool)
    (d : Rat) (ht : 0 ≤ s.currentTime) :
    (nextSrc ≠ "" → s.src = nextSrc →
      setSrcKeepTime nextSrc nm d s
        = { s with muted := nm, defaultMuted := nm }) ∧
    (nextSrc ≠ "" → s.src ≠ nextSrc → 0 < d →
      (setSrcKeepTime nextSrc nm d s).currentTime = min s.currentTime d ∧
      0 ≤ (setSrcKeepTime nextSrc nm d s).currentTime ∧
      (setSrcKeepTime nextSrc nm d s).currentTime ≤ d ∧
      (setSrcKeepTime nextSrc nm d s).src = nextSrc) ∧
    (nextSrc ≠ "" → s.src ≠ nextSrc → d = 0 →
      (setSrcKeepTime nextSrc nm d s).currentTime = s.currentTime) := by
  refine ⟨?_, ?_, ?_⟩
  · intro hns heq
    unfold setSrcKeepTime
    rw [if_neg hns, if_pos heq]
  · intro hns hne hd
    unfold setSrcKeepTime
    rw [if_neg hns, if_neg hne]
    dsimp only
    rw [if_neg (ne_of_gt hd), max_eq_right (le_of_lt hd)]
    exact ⟨rfl, le_min ht (le_of_lt hd), min_le_right _ _, rfl⟩
  · intro hns hne hd
    unfold setSrcKeepTime
    rw [if_neg hns, if_neg hne]
    dsimp only
    rw [if_pos hd, max_eq_right ht, min_self]

/-- Witness for C9: a swap from a silent to an audio asset at time 5 with
the new asset 3 units long, and a same-source request. -/
theorem setSrcKeepTime_spec_witness :
    ((setSrcKeepTime "b.mp4" false 3 ⟨"a.mp4", true, true, 5, 9⟩).currentTime
        = min 5 3 ∧
      0 ≤ (setSrcKeepTime "b.mp4" false 3 ⟨"a.mp4", true, true, 5, 9⟩).currentTime ∧
      (setSrcKeepTime "b.mp4" false 3 ⟨"a.mp4", true, true, 5, 9⟩).currentTime ≤ 3 ∧
      (setSrcKeepTime "b.mp4" false 3 ⟨"a.mp4", true, true, 5, 9⟩).src = "b.mp4") ∧
    setSrcKeepTime "a.mp4" false 3 ⟨"a.mp4", true, true, 5, 9⟩
      = { (⟨"a.mp4", true, true, 5, 9⟩ : VideoSrcState) with
            muted := false, defaultMuted := false } :=
  ⟨(setSrcKeepTime_spec ⟨"a.mp4", true, true, 5, 9⟩ "b.mp4" false 3 (by norm_num)).2.1
      (by decide) (by decide) (by norm_num),
   (setSrcKeepTime_spec ⟨"a.mp4", true, true, 5, 9⟩ "a.mp4" false 3 (by norm_num)).1
      (by decide) rfl⟩

/-! ## `parseInt` of the gallery attributes (site.js 125-126) -/

/-- The whitespace `parseInt` trims: ECMAScript `StrWhiteSpaceChar`, i.e.
`WhiteSpace` (TAB, VT, FF, SP, NBSP, ZWNBSP and the Unicode space
separators U+1680, U+2000-U+200A, U+202F, U+205F, U+3000) together with
`LineTerminator` (LF, CR, LS, PS). -/
def isJsSpace (c : Char) : Bool :=
  c == ' ' || c == '\t' || c == '\n' || c == '\r' ||
  c == '\x0B' || c == '\x0C' ||
  c.toNat == 0xA0 || c.toNat == 0xFEFF ||
  c.toNat == 0x1680 || (0x2000 ≤ c.toNat && c.toNat ≤ 0x200A) ||
  c.toNat == 0x2028 || c.toNat == 0x2029 ||
  c.toNat == 0x202F || c.toNat == 0x205F || c.toNat == 0x3000

/-- `parseInt(str, 10)`: skip leading whitespace, an optional sign, then
the longest prefix of decimal digits; `none` (NaN) if that prefix is
empty. -/
def jsParseInt10 (str : String) : Option Int :=
  let cs := str.toList.dropWhile isJsSpace
  let signAndRest : Int × List Char :=
    match cs with
    | '-' :: rest => (-1, rest)
    | '+' :: rest => (1, rest)
    | _ => (1, cs)
  let digits := signAndRest.2.takeWhile (fun c => c.isDigit)
  if digits.isEmpty then none
  else
    some (signAndRest.1 *
      ((digits.foldl (fun acc c => acc * 10 + (c.toNat - '0'.toNat)) 0 : Nat) : Int))

/-- `gallery.getAttribute('data-initial') || '8'` (site.js 125): a missing
attribute (null) and the empty string are both falsy and fall back to the
default. -/
def attrWithDefault (attr : Option String) (dflt : String) : String :=
  match attr with
  | none => dflt
  | some a => if a = "" then dflt else a

/-- The `initial` count as the gallery code computes it (site.js 125). -/
def parsedInitial (attr : Option String) : Option Int :=
  jsParseInt10 (attrWithDefault attr "8")

/-- C10: a present but unparseable `data-initial` makes `parseInt` yield
NaN, and the setup pass then hides every item (the `idx < NaN` comparison
is false for every index); the default 8 is used only for an absent or
empty attribute, and a present non-empty attribute is always handed to
`parseInt` as is. -/
theorem parseInt_nan_hides_all (a : String) (items : List Bool)
    (hne : a ≠ "") (hnan : jsParseInt10 a = none) :
    setupItems (parsedInitial (some a)) items = List.replicate items.length true ∧
    parsedInitial (some a) = jsParseInt10 a ∧
    parsedInitial none = some 8 ∧
    parsedInitial (some "") = some 8 := by
  have hpa : parsedInitial (some a) = jsParseInt10 a := by
    simp only [parsedInitial, attrWithDefault, if_neg hne]
  refine ⟨?_, hpa, by decide, by decide⟩
  rw [hpa, hnan]
  apply List.ext_get
  · simp [setupItems]
  · intro i h1 h2
    have hi : i < items.length := by
      simpa [setupItems] using h1
    unfold setupItems
    rw [List.get_mapIdx _ _ _ hi]
    simp

/-- Witness for C10: `data-initial="abc"` on a three-item gallery hides all
three items. -/
theorem parseInt_nan_hides_all_witness :
    setupItems (parsedInitial (some "abc")) [false, false, false]
        = List.replicate 3 true ∧
    parsedInitial (some "abc") = jsParseInt10 "abc" ∧
    parsedInitial none = some 8 ∧
    parsedInitial (some "") = some 8 :=
  parseInt_nan_hides_all "abc" [false, false, false] (by decide) (by decide)
